import Mathlib

/-!
Verification development for the bolha-lambda-monitor reconciliation lambda
(src/main.go).

The Go program is embedded shallowly:

* External collaborators (DynamoDB scan/update, the S3 downloader, the bolha
  client) are oracles collected in an `Env` record; each oracle returns the
  deterministic outcome of the corresponding network call.
* Goroutine/channel nondeterminism is made explicit through schedule
  parameters: the completion order of the concurrent S3 fetches inside
  `downloadS3Images` (`sched : List Nat`, the order in which the fetch
  goroutines finish), the order in which the `remove`/`upload` errors of a
  repost reach the inner buffered channel (`removeErrFirst`), and the order
  in which per-listing error sends reach the Handler's unbuffered error
  channel (`arrival : List Nat`).
* Each modelled execution also reports observability data derived from the
  channel discipline of the source: which tasks had completed when the call
  returned, and how many goroutines are blocked forever at that point
  (a send on a channel nobody will ever receive from, or a receive on a
  channel nobody will ever send on).

Integer time arithmetic follows Go's `time` package on amd64: a `Duration`
is a 64-bit signed count of nanoseconds, `Time.Sub` (hence `time.Since`)
clamps to the minimal/maximal `Duration` on overflow, while the product
`time.Duration(h) * time.Hour` is a plain int64 multiplication that wraps.
-/

/-- Byte streams (the contents an `io.Reader` produced by `downloadS3Image`
delivers, main.go:258-274) are modelled as lists of bytes. -/
abbrev Bytes := List Nat

/-- The part of `client.Ad` (main.go:178-184) passed to `c.UploadAd`. -/
structure Ad where
  Title : String
  Description : String
  Price : Int
  CategoryId : Int
  Images : List Bytes
  deriving DecidableEq

/-- The active-ad status returned by `c.GetActiveAd` (main.go:99); the model
only needs its `Order` (rank) field. -/
structure ActiveAd where
  Order : Int
  deriving DecidableEq

/-- `BolhaItem` (main.go:33-47): one listing record as read from DynamoDB. -/
structure BolhaItem where
  AdTitle : String
  AdDescription : String
  AdPrice : Int
  AdCategoryId : Int
  AdImages : List String
  AdUploadedId : Int
  AdUploadedAt : String
  UserSessionId : String
  ReuploadHours : Int
  ReuploadOrder : Int
  deriving DecidableEq

/-- Observable external calls performed by the program, used as the trace
alphabet of a modelled execution. -/
inductive Call where
  | scan : Call
  | newClient (sessionId : String) : Call
  | getActiveAd (id : Int) : Call
  | parseTime (s : String) : Call
  | fetchImage (key : String) : Call
  | uploadRemote (title : String) : Call
  | removeAd (id : Int) : Call
  | updateId (title : String) (newId : Int) : Call
  deriving DecidableEq

/-- Discriminator: is this call the `c.GetActiveAd` status query? -/
def Call.isGetActive : Call → Bool
  | .getActiveAd _ => true
  | _ => false

/-- Discriminator: is this call the `time.Parse` of the stored timestamp? -/
def Call.isParseTime : Call → Bool
  | .parseTime _ => true
  | _ => false

/-- Discriminator: is this call an S3 blob fetch (`downloadS3Image`)? -/
def Call.isFetch : Call → Bool
  | .fetchImage _ => true
  | _ => false

/-- Discriminator: is this call the `c.UploadAd` create-posting call? -/
def Call.isCreate : Call → Bool
  | .uploadRemote _ => true
  | _ => false

/-- Discriminator: is this call the `c.RemoveAd` remove-posting call? -/
def Call.isRemove : Call → Bool
  | .removeAd _ => true
  | _ => false

/-- Discriminator: is this call the `updateUploadedId` record-store write? -/
def Call.isUpdate : Call → Bool
  | .updateId _ _ => true
  | _ => false

/-! ## Go duration arithmetic (main.go:112) -/

/-- `time.Hour` in nanoseconds. -/
def hourNs : Int := 3600000000000

/-- Largest `time.Duration` (int64 max). -/
def maxDur : Int := 2 ^ 63 - 1

/-- Smallest `time.Duration` (int64 min). -/
def minDur : Int := -(2 ^ 63)

/-- Two's-complement wrap-around of an int64 operation, as performed by the
Go multiplication `time.Duration(hours) * time.Hour`. -/
def wrap64 (x : Int) : Int := (x + 2 ^ 63) % 2 ^ 64 - 2 ^ 63

/-- Go's `time.Time.Sub` (hence `time.Since`) clamps the mathematical
difference to the representable `Duration` range instead of wrapping. -/
def clampDur (x : Int) : Int :=
  if x > maxDur then maxDur else if x < minDur then minDur else x

/-- `checkOrder` (part_001:133-135), inlined at main.go:112: the rank test
`activeAd.Order > bItem.ReuploadOrder`. -/
def checkOrder (currOrder allowedOrder : Int) : Bool :=
  currOrder > allowedOrder

/-- `checkTimeDiff` (part_001:137-139), inlined at main.go:112:
`time.Since(uploadedAt) > time.Duration(allowedHours)*time.Hour`, with
`nowNs`/`uploadedAtNs` the two instants in nanoseconds. -/
def checkTimeDiff (nowNs uploadedAtNs allowedHours : Int) : Bool :=
  clampDur (nowNs - uploadedAtNs) > wrap64 (allowedHours * hourNs)

/-! ## Ordered parallel fetch (`downloadS3Images`, main.go:187-222)

The source launches one goroutine per image key; goroutine `i` calls
`downloadS3Image(images[i])` and on success writes the stream into slot
`s3Images[i]`, on failure sends the error into `errChan`, which is buffered
with capacity `len(images)`, so no sender ever blocks and every goroutine
terminates.  The caller's `for err := range errChan` receives the first
error the moment it is sent (or sees the channel closed once the watcher
goroutine has observed `wg.Wait()`).  `sched` lists the goroutine indices
in the order they finish; the call returns either after all of them
finished (no error anywhere) or at the moment the earliest-finishing
failing goroutine sends its error, at which point exactly the goroutines
up to that one in `sched` have completed. -/

/-- Does the fetch outcome at index `i` hold an error?  Out-of-range
indices count as no error (there is no such goroutine). -/
def errAt {ε : Type} (rs : List (Except ε Bytes)) (i : Nat) : Bool :=
  match rs.getD i (Except.ok []) with
  | .error _ => true
  | .ok _ => false

/-- The elements of `l` up to and including the first occurrence of `i`. -/
def takeThrough (l : List Nat) (i : Nat) : List Nat :=
  l.takeWhile (fun j => decide (j ≠ i)) ++ [i]

deriving instance DecidableEq for Except

/-- Observable outcome of one `downloadS3Images` call. -/
structure FetchExec (ε : Type) where
  retval : Except ε (List Bytes)
  launched : Nat
  completedAtReturn : List Nat
  leakedForever : Nat
  deriving DecidableEq

/-- `downloadS3Images` (main.go:187-222) under fetch oracle `fetch` and
completion order `sched`.  `launched` counts the fetch goroutines started;
`completedAtReturn` lists the goroutines that had terminated when the call
returned; `leakedForever` counts goroutines blocked forever past the return
(none: `errChan` is buffered with capacity `len(images)`). -/
def downloadS3Images {ε : Type} (fetch : String → Except ε Bytes)
    (sched : List Nat) (images : List String) : FetchExec ε :=
  let rs := images.map fetch
  match sched.find? (fun i => errAt rs i) with
  | none =>
      -- no goroutine in the completion order failed: the watcher closes
      -- errChan after wg.Wait(), the range loop ends, all slots are filled
      ⟨Except.ok (rs.map (fun r => r.toOption.getD [])), images.length, sched, 0⟩
  | some i =>
      match rs.getD i (Except.ok []) with
      | .error e =>
          -- the first failing goroutine (in completion order) sends e into
          -- the buffered errChan; the range loop receives it and returns
          ⟨Except.error e, images.length, takeThrough sched i, 0⟩
      | .ok _ =>
          -- unreachable: find? returned an index satisfying errAt
          ⟨Except.ok [], images.length, sched, 0⟩

/-! ## Environment of external collaborators

Every network call the program performs is represented by an oracle in
`Env`; an oracle's result is the deterministic outcome of that call. -/

/-- External collaborators of the lambda, one oracle per call site. -/
structure Env (ε : Type) where
  /-- `getBolhaItems` (main.go:226-240): DynamoDB scan and unmarshal. -/
  scan : Except ε (List BolhaItem)
  /-- `client.NewWithSessionId` (main.go:75), keyed by the session id. -/
  newWithSessionId : String → Except ε Unit
  /-- `c.GetActiveAd` (main.go:99), keyed by session id and uploaded id. -/
  getActiveAd : String → Int → Except ε ActiveAd
  /-- `time.Parse(time.RFC3339, s)` (main.go:105), yielding the parsed
  instant in nanoseconds since the epoch. -/
  parseTime : String → Except ε Int
  /-- The instant `time.Since` compares against (main.go:112), in ns. -/
  now : Int
  /-- `downloadS3Image` (main.go:258-274), keyed by the image key. -/
  fetchImage : String → Except ε Bytes
  /-- `c.UploadAd` (main.go:178-184), keyed by session id and the ad. -/
  uploadAdR : String → Ad → Except ε Int
  /-- `c.RemoveAd` (main.go:119), keyed by session id and uploaded id;
  `none` means success. -/
  removeAdR : String → Int → Option ε
  /-- `updateUploadedId` (main.go:242-254); `none` means success. -/
  updateUploadedId : String → Int → Option ε

/-- Schedule parameters resolving the nondeterminism inside one
per-listing goroutine. -/
structure ItemSched where
  /-- Completion order of the image-fetch goroutines inside
  `downloadS3Images`. -/
  fetchSched : List Nat
  /-- When both the remove and the upload side of a repost fail, whether
  the remove error reaches the inner `errChan1` (main.go:115) first. -/
  removeErrFirst : Bool

/-- Observable outcome of one per-listing goroutine (main.go:71-154):
`sent` is the error the goroutine sends on the Handler's error channel
(none on success), `calls` the external calls it performs, and
`leakedForever` the number of inner goroutines it leaves blocked forever. -/
structure ItemExec (ε : Type) where
  sent : Option ε
  calls : List Call
  leakedForever : Nat
  deriving DecidableEq

/-- `uploadAd` (main.go:170-185): download all S3 images, then call
`c.UploadAd`.  Returns the call's result together with the external calls
performed; all image fetches are launched (and each eventually performs
its S3 call), the create call happens only when every fetch succeeded. -/
def uploadAd {ε : Type} (env : Env ε) (S : ItemSched) (bItem : BolhaItem) :
    Except ε Int × List Call :=
  let fcalls := bItem.AdImages.map Call.fetchImage
  match (downloadS3Images env.fetchImage S.fetchSched bItem.AdImages).retval with
  | .error e => (Except.error e, fcalls)
  | .ok imgs =>
      (env.uploadAdR bItem.UserSessionId
        { Title := bItem.AdTitle
          Description := bItem.AdDescription
          Price := bItem.AdPrice
          CategoryId := bItem.AdCategoryId
          Images := imgs },
        fcalls ++ [Call.uploadRemote bItem.AdTitle])

/-- The external calls of a repost (main.go:113-152): the preceding
client/status/parse calls, the remove call, and the upload side's calls;
remove and upload run concurrently, the listed order is conventional. -/
def repostCalls {ε : Type} (env : Env ε) (S : ItemSched) (bItem : BolhaItem) :
    List Call :=
  [Call.newClient bItem.UserSessionId,
    Call.getActiveAd bItem.AdUploadedId,
    Call.parseTime bItem.AdUploadedAt,
    Call.removeAd bItem.AdUploadedId] ++ (uploadAd env S bItem).2

/-- One per-listing goroutine body (main.go:71-154).

The repost branch (main.go:112-153) launches a remove goroutine, an upload
goroutine and a join goroutine.  `removeChan` and `uploadChan` have
capacity 1 and `errChan1` capacity 2, so the remove and upload goroutines
always run to completion (both their calls are always performed).  The
join goroutine receives from `removeChan` and then from `uploadChan`
before calling `updateUploadedId`: it reaches the update only when both
sides succeeded; when the remove side failed it blocks forever on
`<-removeChan` (and when only the upload side failed, forever on
`<-uploadChan`), which `leakedForever := 1` records.  The surrounding
goroutine forwards the first value it receives from `errChan1`. -/
def processItem {ε : Type} (env : Env ε) (S : ItemSched) (bItem : BolhaItem) :
    ItemExec ε :=
  match env.newWithSessionId bItem.UserSessionId with
  | .error e => ⟨some e, [Call.newClient bItem.UserSessionId], 0⟩
  | .ok _ =>
    if bItem.AdUploadedId = 0 then
      -- create path (main.go:82-96)
      match (uploadAd env S bItem).1 with
      | .error e =>
          ⟨some e, Call.newClient bItem.UserSessionId :: (uploadAd env S bItem).2, 0⟩
      | .ok newId =>
          match env.updateUploadedId bItem.AdTitle newId with
          | some e =>
              ⟨some e,
                Call.newClient bItem.UserSessionId :: (uploadAd env S bItem).2 ++
                  [Call.updateId bItem.AdTitle newId], 0⟩
          | none =>
              ⟨none,
                Call.newClient bItem.UserSessionId :: (uploadAd env S bItem).2 ++
                  [Call.updateId bItem.AdTitle newId], 0⟩
    else
      -- posted path (main.go:98-153)
      match env.getActiveAd bItem.UserSessionId bItem.AdUploadedId with
      | .error e =>
          ⟨some e,
            [Call.newClient bItem.UserSessionId,
              Call.getActiveAd bItem.AdUploadedId], 0⟩
      | .ok activeAd =>
          match env.parseTime bItem.AdUploadedAt with
          | .error e =>
              ⟨some e,
                [Call.newClient bItem.UserSessionId,
                  Call.getActiveAd bItem.AdUploadedId,
                  Call.parseTime bItem.AdUploadedAt], 0⟩
          | .ok t =>
              if checkOrder activeAd.Order bItem.ReuploadOrder ||
                  checkTimeDiff env.now t bItem.ReuploadHours then
                -- repost (main.go:113-152); remove and upload run
                -- concurrently and both always complete, the trace lists
                -- the remove call before the upload side's calls only by
                -- convention
                match env.removeAdR bItem.UserSessionId bItem.AdUploadedId,
                    (uploadAd env S bItem).1 with
                | none, .ok newId =>
                    match env.updateUploadedId bItem.AdTitle newId with
                    | some e =>
                        ⟨some e, repostCalls env S bItem ++
                          [Call.updateId bItem.AdTitle newId], 0⟩
                    | none =>
                        ⟨none, repostCalls env S bItem ++
                          [Call.updateId bItem.AdTitle newId], 0⟩
                | some e, .ok _ => ⟨some e, repostCalls env S bItem, 1⟩
                | none, .error e => ⟨some e, repostCalls env S bItem, 1⟩
                | some er, .error eu =>
                    ⟨some (if S.removeErrFirst then er else eu),
                      repostCalls env S bItem, 1⟩
              else
                -- fresh listing: success, no-op (main.go:112, 166)
                ⟨none,
                  [Call.newClient bItem.UserSessionId,
                    Call.getActiveAd bItem.AdUploadedId,
                    Call.parseTime bItem.AdUploadedAt], 0⟩

/-- Observable outcome of one `Handler` invocation. -/
structure HandlerExec (ε : Type) where
  retval : Option ε
  calls : List Call
  unitsLaunched : Nat
  /-- Per-listing goroutines that never terminate: their error send on the
  unbuffered error channel is never received. -/
  unitsNeverCompleting : Nat
  /-- Goroutines blocked forever when `Handler` returns: the
  never-completing per-listing senders, the `wg.Wait`/close watcher when
  one of those exists, and the inner repost join goroutines. -/
  leakedForever : Nat
  deriving DecidableEq

/-- Number of failing per-listing goroutines. -/
def failCount {ε : Type} (sents : List (Option ε)) : Nat :=
  (sents.filter Option.isSome).length

/-- The per-listing goroutine outcomes for one batch: listing `i` runs
under schedule `scheds i` (the goroutines launched at main.go:66-155). -/
def itemExecs {ε : Type} (env : Env ε) (scheds : Nat → ItemSched)
    (bItems : List BolhaItem) : List (ItemExec ε) :=
  bItems.enum.map (fun p => processItem env (scheds p.1) p.2)

/-- The error (if any) each per-listing goroutine sends on the Handler's
error channel. -/
def sentList {ε : Type} (env : Env ε) (scheds : Nat → ItemSched)
    (bItems : List BolhaItem) : List (Option ε) :=
  (itemExecs env scheds bItems).map ItemExec.sent

/-- `Handler` (main.go:49-167) under schedules `scheds` (one per listing
index) and `arrival`, the order in which per-listing error sends reach the
unbuffered `errChan` (main.go:64).

The loop `for err := range errChan` (main.go:162-164) returns on the first
received error; a successful goroutine sends nothing.  Hence: with no
failing listing, Handler blocks until the watcher (main.go:157-160) has
seen all goroutines finish and closed the channel, then returns nil.  With
at least one failing listing, Handler returns the first-arriving error at
the moment it is received; every other failing goroutine then blocks
forever in its send (the channel is unbuffered and has no receiver left),
so it never reaches its deferred `wg.Done` and the watcher blocks forever
in `wg.Wait`. -/
def Handler {ε : Type} (env : Env ε) (scheds : Nat → ItemSched)
    (arrival : List Nat) : HandlerExec ε :=
  match env.scan with
  | .error e => ⟨some e, [Call.scan], 0, 0, 0⟩
  | .ok bItems =>
    match arrival.find? (fun i => ((sentList env scheds bItems).getD i none).isSome) with
    | none =>
        ⟨none,
          Call.scan :: ((itemExecs env scheds bItems).map ItemExec.calls).flatten,
          bItems.length, 0,
          ((itemExecs env scheds bItems).map ItemExec.leakedForever).sum⟩
    | some i =>
        ⟨(sentList env scheds bItems).getD i none,
          Call.scan :: ((itemExecs env scheds bItems).map ItemExec.calls).flatten,
          bItems.length,
          failCount (sentList env scheds bItems) - 1,
          ((itemExecs env scheds bItems).map ItemExec.leakedForever).sum +
            (failCount (sentList env scheds bItems) - 1) +
            (if 0 < failCount (sentList env scheds bItems) - 1 then 1 else 0)⟩


/-! ## Concrete data for witnesses and counterexamples -/

/-- Trivial per-listing schedule (no images, remove error first). -/
def schedD : Nat → ItemSched := fun _ => ⟨[], true⟩

/-- An unposted listing (remote identifier absent). -/
def itemUnposted : BolhaItem :=
  { AdTitle := "t1"
    AdDescription := "d"
    AdPrice := 10
    AdCategoryId := 4
    AdImages := []
    AdUploadedId := 0
    AdUploadedAt := ""
    UserSessionId := "s1"
    ReuploadHours := 24
    ReuploadOrder := 5 }

/-- A posted listing (remote identifier 5). -/
def itemPosted : BolhaItem :=
  { AdTitle := "t2"
    AdDescription := "d"
    AdPrice := 10
    AdCategoryId := 4
    AdImages := []
    AdUploadedId := 5
    AdUploadedAt := "2019-07-17T11:54:26Z"
    UserSessionId := "s2"
    ReuploadHours := 24
    ReuploadOrder := 5 }

/-- A posted listing with one image and an absurdly large age threshold
(2562048 hours, whose duration product overflows int64). -/
def itemOverflow : BolhaItem :=
  { itemPosted with ReuploadHours := 2562048, ReuploadOrder := 0 }

/-- Environment for the C1 counterexample: the scan yields two listings
and every client construction fails with error 3. -/
def envC1 : Env Nat :=
  { scan := Except.ok [itemUnposted, itemPosted]
    newWithSessionId := fun _ => Except.error 3
    getActiveAd := fun _ _ => Except.error 9
    parseTime := fun _ => Except.error 9
    now := 0
    fetchImage := fun _ => Except.error 9
    uploadAdR := fun _ _ => Except.error 9
    removeAdR := fun _ _ => some 9
    updateUploadedId := fun _ _ => some 9 }

/-- Environment for the C2 witness: a repost whose remove fails with
error 13 while the create side succeeds with new identifier 42. -/
def envW2 : Env Nat :=
  { scan := Except.ok [itemPosted]
    newWithSessionId := fun _ => Except.ok ()
    getActiveAd := fun _ _ => Except.ok ⟨10⟩
    parseTime := fun _ => Except.ok 0
    now := 0
    fetchImage := fun _ => Except.ok []
    uploadAdR := fun _ _ => Except.ok 42
    removeAdR := fun _ _ => some 13
    updateUploadedId := fun _ _ => none }

/-- Environment for the C3 counterexample: fresh listing (age 0), rank not
exceeded, everything else succeeding. -/
def envC3 : Env Nat :=
  { scan := Except.ok [itemOverflow]
    newWithSessionId := fun _ => Except.ok ()
    getActiveAd := fun _ _ => Except.ok ⟨0⟩
    parseTime := fun _ => Except.ok 0
    now := 0
    fetchImage := fun _ => Except.ok []
    uploadAdR := fun _ _ => Except.ok 7
    removeAdR := fun _ _ => none
    updateUploadedId := fun _ _ => none }

/-- Environment for the C3 witness: rank 10 exceeds the allowed 5. -/
def envW3 : Env Nat :=
  { envC3 with getActiveAd := fun _ _ => Except.ok ⟨10⟩ }

/-- Image key of the C6 witness listing. -/
def imgKey : String := "img"

/-- Per-listing schedule for the C6 witness (one image fetch). -/
def sched6 : ItemSched := ⟨[0], true⟩

/-- Environment for the C6 witness: the only image fetch fails with
error 5. -/
def envW6 : Env Nat :=
  { scan := Except.ok []
    newWithSessionId := fun _ => Except.ok ()
    getActiveAd := fun _ _ => Except.error 9
    parseTime := fun _ => Except.error 9
    now := 0
    fetchImage := fun _ => Except.error 5
    uploadAdR := fun _ _ => Except.ok 7
    removeAdR := fun _ _ => none
    updateUploadedId := fun _ _ => none }

/-- Unposted listing with one image, for the C6 witness. -/
def itemW6 : BolhaItem := { itemUnposted with AdImages := [imgKey] }

/-- Listing whose client construction fails, for the C7 witness. -/
def itemBad : BolhaItem := { itemUnposted with UserSessionId := "bad" }

/-- Environment for the C7 witness: the scan yields one listing that
succeeds and one whose client construction fails with error 4. -/
def envW7 : Env Nat :=
  { scan := Except.ok [itemUnposted, itemBad]
    newWithSessionId := fun s => if s = "bad" then Except.error 4 else Except.ok ()
    getActiveAd := fun _ _ => Except.error 9
    parseTime := fun _ => Except.error 9
    now := 0
    fetchImage := fun _ => Except.error 9
    uploadAdR := fun _ _ => Except.ok 7
    removeAdR := fun _ _ => some 9
    updateUploadedId := fun _ _ => none }

/-- Environment for the C8 witness: the record-store scan fails with
error 3. -/
def envC8 : Env Nat :=
  { envC1 with scan := Except.error 3 }

/-- Environment for the C10 witness: the status query fails with error 8
and the stored timestamp is malformed too (parse would fail with 9). -/
def envW10 : Env Nat :=
  { envC1 with
      newWithSessionId := fun _ => Except.ok ()
      getActiveAd := fun _ _ => Except.error 8 }

/-- Fetch oracle for the C4 witness: every fetch succeeds. -/
def fetchW4 : String → Except Nat Bytes := fun k => Except.ok [k.length]

/-- Byte streams the C4 witness oracle delivers. -/
def gW4 : String → Bytes := fun k => [k.length]

/-- Fetch oracle for the C5 theorems: the fetch of key "a" fails with
error 5, every other fetch succeeds. -/
def fetchC5 : String → Except Nat Bytes := fun k =>
  if k = "a" then Except.error 5 else Except.ok [1]

/-! Basic facts about the fetch model. -/

theorem errAt_map_of_ok {ε : Type} (fetch : String → Except ε Bytes)
    (g : String → Bytes) (images : List String)
    (h : ∀ k ∈ images, fetch k = Except.ok (g k)) (i : Nat) :
    errAt (images.map fetch) i = false := by
  unfold errAt
  rcases hi : (images.map fetch).getD i (Except.ok []) with e | b
  · exfalso
    unfold List.getD at hi
    rcases hg : (images.map fetch).get? i with _ | r
    · rw [hg] at hi
      simp at hi
    · rw [hg] at hi
      simp at hi
      subst hi
      rw [List.get?_map] at hg
      rcases hk : images.get? i with _ | k
      · rw [hk] at hg
        simp at hg
      · rw [hk] at hg
        simp at hg
        have hmem : k ∈ images := List.get?_mem hk
        rw [h k hmem] at hg
        exact Except.noConfusion hg
  · rfl

theorem find?_eq_none_of_all_false {α : Type} (p : α → Bool) (l : List α)
    (h : ∀ a ∈ l, p a = false) : l.find? p = none := by
  induction l with
  | nil => rfl
  | cons a t ih =>
      rw [List.find?_cons]
      rw [h a (List.mem_cons_self a t)]
      exact ih (fun b hb => h b (List.mem_cons_of_mem a hb))

theorem find?_eq_some_of_split {α : Type} (p : α → Bool) (pre post : List α)
    (a : α) (hpre : ∀ b ∈ pre, p b = false) (ha : p a = true) :
    List.find? p (pre ++ a :: post) = some a := by
  induction pre with
  | nil =>
      simp [List.find?_cons, ha]
  | cons b t ih =>
      rw [List.cons_append, List.find?_cons]
      rw [hpre b (List.mem_cons_self b t)]
      exact ih (fun c hc => hpre c (List.mem_cons_of_mem b hc))

/-- C9: for the empty key sequence, `downloadS3Images` returns an empty
sequence and no error, and launches no concurrent fetch work, whatever the
fetch oracle and the completion order. -/
theorem downloadS3Images_empty {ε : Type} (fetch : String → Except ε Bytes)
    (sched : List Nat) :
    (downloadS3Images fetch sched []).retval = Except.ok [] ∧
    (downloadS3Images fetch sched []).launched = 0 := by
  have hfind : List.find? (fun i => errAt (([] : List String).map fetch) i) sched = none :=
    find?_eq_none_of_all_false _ _ (fun i _ => rfl)
  unfold downloadS3Images
  simp only [hfind]
  exact ⟨rfl, rfl⟩

/-- C4: when every individual fetch succeeds, `downloadS3Images` returns
the sequence of fetched byte streams in input-key order — slot `i` holds
the result of fetching key `i` — for every completion order of the
concurrent fetches. -/
theorem downloadS3Images_ordered_results {ε : Type}
    (fetch : String → Except ε Bytes) (g : String → Bytes)
    (sched : List Nat) (images : List String)
    (h : ∀ k ∈ images, fetch k = Except.ok (g k)) :
    (downloadS3Images fetch sched images).retval = Except.ok (images.map g) := by
  have hfind : List.find? (fun i => errAt (images.map fetch) i) sched = none :=
    find?_eq_none_of_all_false _ _ (fun i _ => errAt_map_of_ok fetch g images h i)
  unfold downloadS3Images
  simp only [hfind]
  congr 1
  rw [List.map_map]
  apply List.map_congr_left
  intro k hk
  simp only [Function.comp_apply]
  rw [h k hk]
  rfl

theorem downloadS3Images_ordered_results_witness :
    (∀ k ∈ ["ab", "c"], fetchW4 k = Except.ok (gW4 k)) ∧
    (downloadS3Images fetchW4 [1, 0] ["ab", "c"]).retval =
      Except.ok (List.map gW4 ["ab", "c"]) :=
  ⟨by decide, downloadS3Images_ordered_results fetchW4 gW4 [1, 0] ["ab", "c"] (by decide)⟩

/-- C5, counterexample to the claim as stated: two keys, the fetch of the
first finishes first and fails.  The call returns the error at that moment:
fetch goroutine 1 was launched but is not among the goroutines completed at
return, so `downloadS3Images` does not wait for all launched fetches to
complete before returning. -/
theorem downloadS3Images_early_return_cex :
    (downloadS3Images fetchC5 [0, 1] ["a", "b"]).retval = Except.error 5 ∧
    (downloadS3Images fetchC5 [0, 1] ["a", "b"]).launched = 2 ∧
    (downloadS3Images fetchC5 [0, 1] ["a", "b"]).completedAtReturn = [0] ∧
    1 ∉ (downloadS3Images fetchC5 [0, 1] ["a", "b"]).completedAtReturn := by
  decide

/-- C5 (amended): when some fetch fails, `downloadS3Images` returns the
error of the first failing fetch in completion order — errors of later
siblings are discarded — and no fetch goroutine is blocked forever past
the return (the error channel is buffered with capacity N, so every
launched fetch eventually terminates); however the call returns at the
moment that first error is observed, with exactly the fetches up to it in
completion order finished, rather than waiting for all launched fetches. -/
theorem downloadS3Images_first_error_no_leak {ε : Type}
    (fetch : String → Except ε Bytes) (images : List String)
    (pre post : List Nat) (i : Nat) (e : ε)
    (hpre : ∀ j ∈ pre, errAt (images.map fetch) j = false)
    (he : (images.map fetch).getD i (Except.ok []) = Except.error e) :
    (downloadS3Images fetch (pre ++ i :: post) images).retval = Except.error e ∧
    (downloadS3Images fetch (pre ++ i :: post) images).leakedForever = 0 ∧
    (downloadS3Images fetch (pre ++ i :: post) images).completedAtReturn =
      takeThrough (pre ++ i :: post) i := by
  have hi : errAt (images.map fetch) i = true := by
    unfold errAt
    rw [he]
  have hfind := find?_eq_some_of_split (fun j => errAt (images.map fetch) j) pre post i hpre hi
  unfold downloadS3Images
  simp only [hfind, he]
  exact ⟨trivial, trivial, trivial⟩

theorem downloadS3Images_first_error_no_leak_witness :
    (∀ j ∈ ([] : List Nat), errAt (["a", "b"].map fetchC5) j = false) ∧
    (["a", "b"].map fetchC5).getD 0 (Except.ok []) = Except.error 5 ∧
    (downloadS3Images fetchC5 ([] ++ 0 :: [1]) ["a", "b"]).retval = Except.error 5 ∧
    (downloadS3Images fetchC5 ([] ++ 0 :: [1]) ["a", "b"]).leakedForever = 0 ∧
    (downloadS3Images fetchC5 ([] ++ 0 :: [1]) ["a", "b"]).completedAtReturn =
      takeThrough ([] ++ 0 :: [1]) 0 := by
  refine ⟨by decide, by decide, ?_⟩
  have h := downloadS3Images_first_error_no_leak fetchC5 ["a", "b"] [] [1] 0 5
    (by decide) (by decide)
  exact ⟨h.1, h.2.1, h.2.2⟩

/-! Helper lemmas about the per-listing model. -/

theorem uploadAd_mem_fetch {ε : Type} (env : Env ε) (S : ItemSched)
    (bItem : BolhaItem) (k : String) (hk : k ∈ bItem.AdImages) :
    Call.fetchImage k ∈ (uploadAd env S bItem).2 := by
  unfold uploadAd
  rcases h : (downloadS3Images env.fetchImage S.fetchSched bItem.AdImages).retval with e | imgs
  · simp only [h, List.mem_map]
    exact ⟨k, hk, rfl⟩
  · simp only [h, List.mem_append, List.mem_map]
    exact Or.inl ⟨k, hk, rfl⟩

theorem uploadAd_calls_kinds {ε : Type} (env : Env ε) (S : ItemSched)
    (bItem : BolhaItem) :
    ∀ c ∈ (uploadAd env S bItem).2, c.isFetch = true ∨ c.isCreate = true := by
  intro c hc
  unfold uploadAd at hc
  rcases h : (downloadS3Images env.fetchImage S.fetchSched bItem.AdImages).retval with e | imgs
  · simp only [h, List.mem_map] at hc
    obtain ⟨k, _, hk⟩ := hc
    subst hk
    exact Or.inl rfl
  · simp only [h, List.mem_append, List.mem_map, List.mem_singleton] at hc
    rcases hc with ⟨k, _, hk⟩ | hk
    · subst hk
      exact Or.inl rfl
    · subst hk
      exact Or.inr rfl

theorem kinds_of_fetch_or_create (c : Call)
    (h : c.isFetch = true ∨ c.isCreate = true) :
    c.isGetActive = false ∧ c.isParseTime = false ∧
    c.isRemove = false ∧ c.isUpdate = false := by
  cases c <;>
    simp [Call.isFetch, Call.isCreate, Call.isGetActive, Call.isParseTime,
      Call.isRemove, Call.isUpdate] at h ⊢

/-! Branch equations of `processItem`, one per control path of
main.go:71-154. -/

theorem processItem_client_err {ε : Type} (env : Env ε) (S : ItemSched)
    (bItem : BolhaItem) (e : ε)
    (hc : env.newWithSessionId bItem.UserSessionId = Except.error e) :
    processItem env S bItem = ⟨some e, [Call.newClient bItem.UserSessionId], 0⟩ := by
  unfold processItem
  rw [hc]

theorem processItem_create_err {ε : Type} (env : Env ε) (S : ItemSched)
    (bItem : BolhaItem) (e : ε)
    (hc : env.newWithSessionId bItem.UserSessionId = Except.ok ())
    (hid : bItem.AdUploadedId = 0)
    (hup : (uploadAd env S bItem).1 = Except.error e) :
    processItem env S bItem =
      ⟨some e, Call.newClient bItem.UserSessionId :: (uploadAd env S bItem).2, 0⟩ := by
  unfold processItem
  rw [hc, hid, if_pos rfl, hup]

theorem processItem_create_ok {ε : Type} (env : Env ε) (S : ItemSched)
    (bItem : BolhaItem) (newId : Int)
    (hc : env.newWithSessionId bItem.UserSessionId = Except.ok ())
    (hid : bItem.AdUploadedId = 0)
    (hup : (uploadAd env S bItem).1 = Except.ok newId) :
    processItem env S bItem =
      ⟨(env.updateUploadedId bItem.AdTitle newId).elim none some,
        Call.newClient bItem.UserSessionId :: (uploadAd env S bItem).2 ++
          [Call.updateId bItem.AdTitle newId], 0⟩ := by
  unfold processItem
  rw [hc, hid, if_pos rfl, hup]
  rcases h : env.updateUploadedId bItem.AdTitle newId with _ | e <;> simp [h]

theorem processItem_status_err {ε : Type} (env : Env ε) (S : ItemSched)
    (bItem : BolhaItem) (e : ε)
    (hc : env.newWithSessionId bItem.UserSessionId = Except.ok ())
    (hid : bItem.AdUploadedId ≠ 0)
    (hga : env.getActiveAd bItem.UserSessionId bItem.AdUploadedId = Except.error e) :
    processItem env S bItem =
      ⟨some e, [Call.newClient bItem.UserSessionId,
        Call.getActiveAd bItem.AdUploadedId], 0⟩ := by
  unfold processItem
  rw [hc, if_neg hid, hga]

theorem processItem_parse_err {ε : Type} (env : Env ε) (S : ItemSched)
    (bItem : BolhaItem) (activeAd : ActiveAd) (e : ε)
    (hc : env.newWithSessionId bItem.UserSessionId = Except.ok ())
    (hid : bItem.AdUploadedId ≠ 0)
    (hga : env.getActiveAd bItem.UserSessionId bItem.AdUploadedId = Except.ok activeAd)
    (hp : env.parseTime bItem.AdUploadedAt = Except.error e) :
    processItem env S bItem =
      ⟨some e, [Call.newClient bItem.UserSessionId,
        Call.getActiveAd bItem.AdUploadedId,
        Call.parseTime bItem.AdUploadedAt], 0⟩ := by
  unfold processItem
  rw [hc, if_neg hid, hga, hp]

theorem processItem_fresh {ε : Type} (env : Env ε) (S : ItemSched)
    (bItem : BolhaItem) (activeAd : ActiveAd) (t : Int)
    (hc : env.newWithSessionId bItem.UserSessionId = Except.ok ())
    (hid : bItem.AdUploadedId ≠ 0)
    (hga : env.getActiveAd bItem.UserSessionId bItem.AdUploadedId = Except.ok activeAd)
    (hp : env.parseTime bItem.AdUploadedAt = Except.ok t)
    (hcond : (checkOrder activeAd.Order bItem.ReuploadOrder ||
      checkTimeDiff env.now t bItem.ReuploadHours) = false) :
    processItem env S bItem =
      ⟨none, [Call.newClient bItem.UserSessionId,
        Call.getActiveAd bItem.AdUploadedId,
        Call.parseTime bItem.AdUploadedAt], 0⟩ := by
  simp [processItem, hc, hid, hga, hp, hcond]

theorem processItem_repost_remove_err {ε : Type} (env : Env ε) (S : ItemSched)
    (bItem : BolhaItem) (activeAd : ActiveAd) (t : Int) (er : ε) (newId : Int)
    (hc : env.newWithSessionId bItem.UserSessionId = Except.ok ())
    (hid : bItem.AdUploadedId ≠ 0)
    (hga : env.getActiveAd bItem.UserSessionId bItem.AdUploadedId = Except.ok activeAd)
    (hp : env.parseTime bItem.AdUploadedAt = Except.ok t)
    (hcond : (checkOrder activeAd.Order bItem.ReuploadOrder ||
      checkTimeDiff env.now t bItem.ReuploadHours) = true)
    (hrem : env.removeAdR bItem.UserSessionId bItem.AdUploadedId = some er)
    (hup : (uploadAd env S bItem).1 = Except.ok newId) :
    processItem env S bItem = ⟨some er, repostCalls env S bItem, 1⟩ := by
  simp [processItem, hc, hid, hga, hp, hcond, hrem, hup]

theorem processItem_repost_upload_err {ε : Type} (env : Env ε) (S : ItemSched)
    (bItem : BolhaItem) (activeAd : ActiveAd) (t : Int) (eu : ε)
    (hc : env.newWithSessionId bItem.UserSessionId = Except.ok ())
    (hid : bItem.AdUploadedId ≠ 0)
    (hga : env.getActiveAd bItem.UserSessionId bItem.AdUploadedId = Except.ok activeAd)
    (hp : env.parseTime bItem.AdUploadedAt = Except.ok t)
    (hcond : (checkOrder activeAd.Order bItem.ReuploadOrder ||
      checkTimeDiff env.now t bItem.ReuploadHours) = true)
    (hrem : env.removeAdR bItem.UserSessionId bItem.AdUploadedId = none)
    (hup : (uploadAd env S bItem).1 = Except.error eu) :
    processItem env S bItem = ⟨some eu, repostCalls env S bItem, 1⟩ := by
  simp [processItem, hc, hid, hga, hp, hcond, hrem, hup]

theorem processItem_repost_both_err {ε : Type} (env : Env ε) (S : ItemSched)
    (bItem : BolhaItem) (activeAd : ActiveAd) (t : Int) (er eu : ε)
    (hc : env.newWithSessionId bItem.UserSessionId = Except.ok ())
    (hid : bItem.AdUploadedId ≠ 0)
    (hga : env.getActiveAd bItem.UserSessionId bItem.AdUploadedId = Except.ok activeAd)
    (hp : env.parseTime bItem.AdUploadedAt = Except.ok t)
    (hcond : (checkOrder activeAd.Order bItem.ReuploadOrder ||
      checkTimeDiff env.now t bItem.ReuploadHours) = true)
    (hrem : env.removeAdR bItem.UserSessionId bItem.AdUploadedId = some er)
    (hup : (uploadAd env S bItem).1 = Except.error eu) :
    processItem env S bItem =
      ⟨some (if S.removeErrFirst then er else eu), repostCalls env S bItem, 1⟩ := by
  simp [processItem, hc, hid, hga, hp, hcond, hrem, hup]

theorem processItem_repost_ok {ε : Type} (env : Env ε) (S : ItemSched)
    (bItem : BolhaItem) (activeAd : ActiveAd) (t : Int) (newId : Int)
    (hc : env.newWithSessionId bItem.UserSessionId = Except.ok ())
    (hid : bItem.AdUploadedId ≠ 0)
    (hga : env.getActiveAd bItem.UserSessionId bItem.AdUploadedId = Except.ok activeAd)
    (hp : env.parseTime bItem.AdUploadedAt = Except.ok t)
    (hcond : (checkOrder activeAd.Order bItem.ReuploadOrder ||
      checkTimeDiff env.now t bItem.ReuploadHours) = true)
    (hrem : env.removeAdR bItem.UserSessionId bItem.AdUploadedId = none)
    (hup : (uploadAd env S bItem).1 = Except.ok newId) :
    processItem env S bItem =
      ⟨(env.updateUploadedId bItem.AdTitle newId).elim none some,
        repostCalls env S bItem ++ [Call.updateId bItem.AdTitle newId], 0⟩ := by
  rcases h : env.updateUploadedId bItem.AdTitle newId with _ | e <;>
    simp [processItem, hc, hid, hga, hp, hcond, hrem, hup, h]

/-! Arithmetic facts about Go durations. -/

theorem wrap64_id (x : Int) (h1 : -(2 ^ 63) ≤ x) (h2 : x < 2 ^ 63) :
    wrap64 x = x := by
  unfold wrap64
  omega

theorem clampDur_gt_iff (d T : Int) (h1 : minDur < T) (h2 : T < maxDur) :
    clampDur d > T ↔ d > T := by
  unfold minDur at h1
  unfold maxDur at h2
  unfold clampDur maxDur minDur
  split <;> [skip; split] <;> omega

theorem checkOrder_iff (a b : Int) : checkOrder a b = true ↔ a > b := by
  unfold checkOrder
  exact decide_eq_true_iff

theorem checkTimeDiff_iff (nowNs uploadedAtNs allowedHours : Int)
    (hb1 : -2562047 ≤ allowedHours) (hb2 : allowedHours ≤ 2562047) :
    checkTimeDiff nowNs uploadedAtNs allowedHours = true ↔
      nowNs - uploadedAtNs > allowedHours * hourNs := by
  unfold checkTimeDiff
  rw [wrap64_id (allowedHours * hourNs) (by unfold hourNs; omega) (by unfold hourNs; omega)]
  rw [decide_eq_true_iff]
  exact clampDur_gt_iff _ _ (by unfold minDur hourNs; omega) (by unfold maxDur hourNs; omega)

/-! Branch equations of `Handler`. -/

theorem Handler_scan_ok_none {ε : Type} (env : Env ε) (scheds : Nat → ItemSched)
    (arrival : List Nat) (bItems : List BolhaItem)
    (hscan : env.scan = Except.ok bItems)
    (hf : arrival.find? (fun j =>
      ((sentList env scheds bItems).getD j none).isSome) = none) :
    Handler env scheds arrival =
      ⟨none, Call.scan :: ((itemExecs env scheds bItems).map ItemExec.calls).flatten,
        bItems.length, 0,
        ((itemExecs env scheds bItems).map ItemExec.leakedForever).sum⟩ := by
  simp only [Handler, hscan, hf]

theorem Handler_scan_ok_found {ε : Type} (env : Env ε) (scheds : Nat → ItemSched)
    (arrival : List Nat) (bItems : List BolhaItem) (i : Nat)
    (hscan : env.scan = Except.ok bItems)
    (hf : arrival.find? (fun j =>
      ((sentList env scheds bItems).getD j none).isSome) = some i) :
    Handler env scheds arrival =
      ⟨(sentList env scheds bItems).getD i none,
        Call.scan :: ((itemExecs env scheds bItems).map ItemExec.calls).flatten,
        bItems.length,
        failCount (sentList env scheds bItems) - 1,
        ((itemExecs env scheds bItems).map ItemExec.leakedForever).sum +
          (failCount (sentList env scheds bItems) - 1) +
          (if 0 < failCount (sentList env scheds bItems) - 1 then 1 else 0)⟩ := by
  simp only [Handler, hscan, hf]

/-! ## The claims -/

/-- C6: a listing whose remote identifier is absent (`AdUploadedId = 0`)
takes the Create path: its reconciliation never performs the
active-status query and never parses the stored timestamp; once the
client is constructed, every blob fetch is performed, and a failure of
the fetch-and-create composite (`uploadAd`) becomes that listing's error
with no record-store write. -/
theorem unposted_takes_create_path {ε : Type} (env : Env ε) (S : ItemSched)
    (bItem : BolhaItem) (hid : bItem.AdUploadedId = 0) :
    ((processItem env S bItem).calls.all
      (fun c => !c.isGetActive && !c.isParseTime)) = true ∧
    (env.newWithSessionId bItem.UserSessionId = Except.ok () →
      (∀ k ∈ bItem.AdImages, Call.fetchImage k ∈ (processItem env S bItem).calls) ∧
      ∀ e, (uploadAd env S bItem).1 = Except.error e →
        (processItem env S bItem).sent = some e ∧
        ((processItem env S bItem).calls.all (fun c => !c.isUpdate)) = true) := by
  rcases hc : env.newWithSessionId bItem.UserSessionId with e0 | u
  · rw [processItem_client_err env S bItem e0 hc]
    exact ⟨rfl, fun hok => Except.noConfusion hok⟩
  · cases u
    have hupedge : ∀ c ∈ (uploadAd env S bItem).2,
        (!c.isGetActive && !c.isParseTime) = true := by
      intro c hcm
      obtain ⟨h1, h2, _, _⟩ :=
        kinds_of_fetch_or_create c (uploadAd_calls_kinds env S bItem c hcm)
      rw [h1, h2]
      rfl
    have hupnoupd : ∀ c ∈ (uploadAd env S bItem).2, (!c.isUpdate) = true := by
      intro c hcm
      obtain ⟨_, _, _, h4⟩ :=
        kinds_of_fetch_or_create c (uploadAd_calls_kinds env S bItem c hcm)
      rw [h4]
      rfl
    rcases hup : (uploadAd env S bItem).1 with e1 | newId
    · rw [processItem_create_err env S bItem e1 hc hid hup]
      refine ⟨?_, fun _ => ⟨?_, ?_⟩⟩
      · show (Call.newClient bItem.UserSessionId :: (uploadAd env S bItem).2).all
          (fun c => !c.isGetActive && !c.isParseTime) = true
        rw [List.all_eq_true]
        intro c hcmem
        rcases List.mem_cons.mp hcmem with h | h
        · subst h
          rfl
        · exact hupedge c h
      · exact fun k hk => List.mem_cons_of_mem _ (uploadAd_mem_fetch env S bItem k hk)
      · intro e he
        injection he with h1
        subst h1
        refine ⟨rfl, ?_⟩
        show (Call.newClient bItem.UserSessionId :: (uploadAd env S bItem).2).all
          (fun c => !c.isUpdate) = true
        rw [List.all_eq_true]
        intro c hcmem
        rcases List.mem_cons.mp hcmem with h | h
        · subst h
          rfl
        · exact hupnoupd c h
    · rw [processItem_create_ok env S bItem newId hc hid hup]
      refine ⟨?_, fun _ => ⟨?_, ?_⟩⟩
      · show (Call.newClient bItem.UserSessionId :: ((uploadAd env S bItem).2 ++
          [Call.updateId bItem.AdTitle newId])).all
          (fun c => !c.isGetActive && !c.isParseTime) = true
        rw [List.all_eq_true]
        intro c hcmem
        rcases List.mem_cons.mp hcmem with h | h
        · subst h
          rfl
        · rcases List.mem_append.mp h with h2 | h2
          · exact hupedge c h2
          · rw [List.mem_singleton.mp h2]
            rfl
      · exact fun k hk => List.mem_cons_of_mem _
          (List.mem_append_left _ (uploadAd_mem_fetch env S bItem k hk))
      · intro e he
        exact Except.noConfusion he

theorem unposted_takes_create_path_witness :
    ((processItem envW6 sched6 itemW6).calls.all
      (fun c => !c.isGetActive && !c.isParseTime)) = true ∧
    Call.fetchImage imgKey ∈ (processItem envW6 sched6 itemW6).calls ∧
    (processItem envW6 sched6 itemW6).sent = some 5 ∧
    ((processItem envW6 sched6 itemW6).calls.all (fun c => !c.isUpdate)) = true := by
  have h := unposted_takes_create_path envW6 sched6 itemW6 rfl
  have h2 := h.2 rfl
  exact ⟨h.1, h2.1 imgKey (by decide), (h2.2 5 (by decide)).1, (h2.2 5 (by decide)).2⟩

/-- C10: for a Posted listing (`AdUploadedId ≠ 0`) whose client
construction succeeds, the active-status query is performed before the
stored timestamp is parsed — the trace begins with the client
construction followed by the `GetActiveAd` call.  When the status query
fails, its error is the listing's outcome whatever the timestamp parse
would return, and no parse, blob fetch, remove, create or record-store
write happens; when the query succeeds and the parse fails, the parse
error is the listing's outcome and no blob fetch, remove, create or
record-store write happens. -/
theorem posted_status_before_parse {ε : Type} (env : Env ε) (S : ItemSched)
    (bItem : BolhaItem)
    (hid : bItem.AdUploadedId ≠ 0)
    (hc : env.newWithSessionId bItem.UserSessionId = Except.ok ()) :
    (processItem env S bItem).calls.take 2 =
      [Call.newClient bItem.UserSessionId, Call.getActiveAd bItem.AdUploadedId] ∧
    (∀ e, env.getActiveAd bItem.UserSessionId bItem.AdUploadedId = Except.error e →
      (processItem env S bItem).sent = some e ∧
      ((processItem env S bItem).calls.all (fun c =>
        !c.isParseTime && !c.isFetch && !c.isRemove && !c.isCreate && !c.isUpdate)) = true) ∧
    (∀ activeAd e,
      env.getActiveAd bItem.UserSessionId bItem.AdUploadedId = Except.ok activeAd →
      env.parseTime bItem.AdUploadedAt = Except.error e →
      (processItem env S bItem).sent = some e ∧
      ((processItem env S bItem).calls.all (fun c =>
        !c.isFetch && !c.isRemove && !c.isCreate && !c.isUpdate)) = true) := by
  rcases hga : env.getActiveAd bItem.UserSessionId bItem.AdUploadedId with ea | ad
  · rw [processItem_status_err env S bItem ea hc hid hga]
    refine ⟨rfl, fun e he => ?_, fun ad e hok _ => Except.noConfusion hok⟩
    injection he with h1
    subst h1
    exact ⟨rfl, rfl⟩
  · rcases hp : env.parseTime bItem.AdUploadedAt with ep | t
    · rw [processItem_parse_err env S bItem ad ep hc hid hga hp]
      refine ⟨rfl, fun e he => Except.noConfusion he, ?_⟩
      intro ad2 e _ hperr
      injection hperr with h1
      subst h1
      exact ⟨rfl, rfl⟩
    · refine ⟨?_, fun e he => Except.noConfusion he,
        fun ad2 e _ hperr => Except.noConfusion hperr⟩
      cases hcond : (checkOrder ad.Order bItem.ReuploadOrder ||
          checkTimeDiff env.now t bItem.ReuploadHours) with
      | false =>
          rw [processItem_fresh env S bItem ad t hc hid hga hp hcond]
          rfl
      | true =>
          rcases hrem : env.removeAdR bItem.UserSessionId bItem.AdUploadedId with _ | er
          · rcases hup : (uploadAd env S bItem).1 with eu | nid
            · rw [processItem_repost_upload_err env S bItem ad t eu hc hid hga hp hcond hrem hup]
              rfl
            · rw [processItem_repost_ok env S bItem ad t nid hc hid hga hp hcond hrem hup]
              rfl
          · rcases hup : (uploadAd env S bItem).1 with eu | nid
            · rw [processItem_repost_both_err env S bItem ad t er eu hc hid hga hp hcond hrem hup]
              rfl
            · rw [processItem_repost_remove_err env S bItem ad t er nid hc hid hga hp hcond hrem hup]
              rfl

theorem posted_status_before_parse_witness :
    (processItem envW10 (schedD 0) itemPosted).calls.take 2 =
      [Call.newClient itemPosted.UserSessionId,
        Call.getActiveAd itemPosted.AdUploadedId] ∧
    (processItem envW10 (schedD 0) itemPosted).sent = some 8 ∧
    ((processItem envW10 (schedD 0) itemPosted).calls.all (fun c =>
      !c.isParseTime && !c.isFetch && !c.isRemove && !c.isCreate && !c.isUpdate)) = true := by
  have h := posted_status_before_parse envW10 (schedD 0) itemPosted (by decide) rfl
  exact ⟨h.1, (h.2.1 8 rfl).1, (h.2.1 8 rfl).2⟩

/-- C2: in a repost of a Posted listing, the new remote identifier is
persisted only when both the remove and the create side succeeded; if
either side fails, the listing's reconciliation fails with an error of a
failing side and no record-store write occurs — in particular, when the
remove fails while the create side succeeds, the reported error is the
remove failure. -/
theorem repost_persist_only_after_both_succeed {ε : Type} (env : Env ε)
    (S : ItemSched) (bItem : BolhaItem) (activeAd : ActiveAd) (t : Int)
    (hc : env.newWithSessionId bItem.UserSessionId = Except.ok ())
    (hid : bItem.AdUploadedId ≠ 0)
    (hga : env.getActiveAd bItem.UserSessionId bItem.AdUploadedId = Except.ok activeAd)
    (hp : env.parseTime bItem.AdUploadedAt = Except.ok t)
    (hcond : (checkOrder activeAd.Order bItem.ReuploadOrder ||
      checkTimeDiff env.now t bItem.ReuploadHours) = true) :
    (∀ er newId, env.removeAdR bItem.UserSessionId bItem.AdUploadedId = some er →
      (uploadAd env S bItem).1 = Except.ok newId →
      (processItem env S bItem).sent = some er ∧
      ((processItem env S bItem).calls.all (fun c => !c.isUpdate)) = true) ∧
    (∀ eu, env.removeAdR bItem.UserSessionId bItem.AdUploadedId = none →
      (uploadAd env S bItem).1 = Except.error eu →
      (processItem env S bItem).sent = some eu ∧
      ((processItem env S bItem).calls.all (fun c => !c.isUpdate)) = true) ∧
    (∀ er eu, env.removeAdR bItem.UserSessionId bItem.AdUploadedId = some er →
      (uploadAd env S bItem).1 = Except.error eu →
      ((processItem env S bItem).sent = some er ∨
        (processItem env S bItem).sent = some eu) ∧
      ((processItem env S bItem).calls.all (fun c => !c.isUpdate)) = true) ∧
    (∀ newId, env.removeAdR bItem.UserSessionId bItem.AdUploadedId = none →
      (uploadAd env S bItem).1 = Except.ok newId →
      Call.updateId bItem.AdTitle newId ∈ (processItem env S bItem).calls) := by
  have hall : (repostCalls env S bItem).all (fun c => !c.isUpdate) = true := by
    rw [List.all_eq_true]
    intro c hcmem
    unfold repostCalls at hcmem
    rcases List.mem_append.mp hcmem with h | h
    · rcases h with _ | ⟨_, _ | ⟨_, _ | ⟨_, _ | ⟨_, h⟩⟩⟩⟩ <;> first | rfl | cases h
    · obtain ⟨_, _, _, h4⟩ :=
        kinds_of_fetch_or_create c (uploadAd_calls_kinds env S bItem c h)
      rw [h4]
      rfl
  refine ⟨?_, ?_, ?_, ?_⟩
  · intro er newId hrem hup
    rw [processItem_repost_remove_err env S bItem activeAd t er newId hc hid hga hp hcond hrem hup]
    exact ⟨rfl, hall⟩
  · intro eu hrem hup
    rw [processItem_repost_upload_err env S bItem activeAd t eu hc hid hga hp hcond hrem hup]
    exact ⟨rfl, hall⟩
  · intro er eu hrem hup
    rw [processItem_repost_both_err env S bItem activeAd t er eu hc hid hga hp hcond hrem hup]
    refine ⟨?_, hall⟩
    cases hS : S.removeErrFirst
    · right
      rfl
    · left
      rfl
  · intro newId hrem hup
    rw [processItem_repost_ok env S bItem activeAd t newId hc hid hga hp hcond hrem hup]
    show Call.updateId bItem.AdTitle newId ∈
      repostCalls env S bItem ++ [Call.updateId bItem.AdTitle newId]
    exact List.mem_append_right _ (List.mem_singleton.mpr rfl)

theorem repost_persist_only_after_both_succeed_witness :
    (processItem envW2 (schedD 0) itemPosted).sent = some 13 ∧
    ((processItem envW2 (schedD 0) itemPosted).calls.all (fun c => !c.isUpdate)) = true := by
  have h := repost_persist_only_after_both_succeed envW2 (schedD 0) itemPosted
    ⟨10⟩ 0 rfl (by decide) rfl rfl (by decide)
  exact h.1 13 42 rfl rfl

/-- C3, counterexample to the claim as stated: listing `itemOverflow` has
`ReuploadOrder = 0` and `ReuploadHours = 2562048`; the Go computation
`time.Duration(2562048) * time.Hour` overflows int64 and wraps to a
negative duration.  With rank 0 (not above 0) and age exactly 0 — so
neither `rank > maxAllowedRank` nor `now − postingTimestamp >
maxAgeHours` hours holds — the claim demands no repost, yet the code
takes the repost branch and performs the remove call. -/
theorem staleness_overflow_cex :
    (processItem envC3 (schedD 0) itemOverflow).calls.any Call.isRemove = true ∧
    ¬(((0 : Int) > (0 : Int)) ∨ ((0 : Int) - 0 > 2562048 * hourNs)) ∧
    checkTimeDiff 0 0 2562048 = true := by
  refine ⟨by decide, by decide, by decide⟩

/-- C3 (amended): for a Posted listing whose status query and timestamp
parse succeed, and whose `ReuploadHours` is small enough that
`time.Duration(ReuploadHours) * time.Hour` does not overflow int64
(|ReuploadHours| ≤ 2562047), a repost is performed — the remove call
appears in the trace — iff `rank > maxAllowedRank` or
`now − postingTimestamp > maxAgeHours` hours, both comparisons strict;
at the boundary (rank equal, age exactly the threshold) no repost
happens.  Beyond that bound the duration product wraps (see the
counterexample). -/
theorem staleness_iff_rank_or_age {ε : Type} (env : Env ε) (S : ItemSched)
    (bItem : BolhaItem) (activeAd : ActiveAd) (t : Int)
    (hc : env.newWithSessionId bItem.UserSessionId = Except.ok ())
    (hid : bItem.AdUploadedId ≠ 0)
    (hga : env.getActiveAd bItem.UserSessionId bItem.AdUploadedId = Except.ok activeAd)
    (hp : env.parseTime bItem.AdUploadedAt = Except.ok t)
    (hb1 : -2562047 ≤ bItem.ReuploadHours) (hb2 : bItem.ReuploadHours ≤ 2562047) :
    ((processItem env S bItem).calls.any Call.isRemove = true ↔
      (activeAd.Order > bItem.ReuploadOrder ∨
        env.now - t > bItem.ReuploadHours * hourNs)) := by
  have hiff : (checkOrder activeAd.Order bItem.ReuploadOrder ||
      checkTimeDiff env.now t bItem.ReuploadHours) = true ↔
      (activeAd.Order > bItem.ReuploadOrder ∨
        env.now - t > bItem.ReuploadHours * hourNs) := by
    rw [Bool.or_eq_true, checkOrder_iff, checkTimeDiff_iff _ _ _ hb1 hb2]
  cases hcond : (checkOrder activeAd.Order bItem.ReuploadOrder ||
      checkTimeDiff env.now t bItem.ReuploadHours) with
  | false =>
      rw [processItem_fresh env S bItem activeAd t hc hid hga hp hcond]
      constructor
      · intro hany
        exact Bool.noConfusion hany
      · intro hor
        have hx := hiff.mpr hor
        rw [hcond] at hx
        exact Bool.noConfusion hx
  | true =>
      constructor
      · intro _
        exact hiff.mp hcond
      · intro _
        rcases hrem : env.removeAdR bItem.UserSessionId bItem.AdUploadedId with _ | er
        · rcases hup : (uploadAd env S bItem).1 with eu | nid
          · rw [processItem_repost_upload_err env S bItem activeAd t eu hc hid hga hp hcond hrem hup]
            rfl
          · rw [processItem_repost_ok env S bItem activeAd t nid hc hid hga hp hcond hrem hup]
            rfl
        · rcases hup : (uploadAd env S bItem).1 with eu | nid
          · rw [processItem_repost_both_err env S bItem activeAd t er eu hc hid hga hp hcond hrem hup]
            rfl
          · rw [processItem_repost_remove_err env S bItem activeAd t er nid hc hid hga hp hcond hrem hup]
            rfl

theorem staleness_iff_rank_or_age_witness :
    (processItem envW3 (schedD 0) itemPosted).calls.any Call.isRemove = true ↔
      ((10 : Int) > itemPosted.ReuploadOrder ∨
        envW3.now - 0 > itemPosted.ReuploadHours * hourNs) := by
  exact staleness_iff_rank_or_age envW3 (schedD 0) itemPosted ⟨10⟩ 0 rfl (by decide)
    rfl rfl (by decide) (by decide)

/-- C8: when the record-store scan fails, Handler returns exactly that
error and nothing else happens: no per-listing goroutine is launched,
the scan is the only external call, and nothing leaks. -/
theorem scan_failure_aborts_batch {ε : Type} (env : Env ε)
    (scheds : Nat → ItemSched) (arrival : List Nat) (e : ε)
    (h : env.scan = Except.error e) :
    Handler env scheds arrival = ⟨some e, [Call.scan], 0, 0, 0⟩ := by
  unfold Handler
  rw [h]

theorem scan_failure_aborts_batch_witness :
    envC8.scan = Except.error 3 ∧
    Handler envC8 schedD [] = ⟨some 3, [Call.scan], 0, 0, 0⟩ :=
  ⟨rfl, scan_failure_aborts_batch envC8 schedD [] 3 rfl⟩

/-- C7: with a successful scan and an arrival order that is a
permutation of the listing indices, Handler returns no error iff every
per-listing reconciliation succeeded; and when some listing fails, the
returned value is exactly the error of the first failing listing in
arrival order — one error, all later ones discarded. -/
theorem handler_ok_iff_all_ok {ε : Type} (env : Env ε)
    (scheds : Nat → ItemSched) (arrival : List Nat) (bItems : List BolhaItem)
    (hscan : env.scan = Except.ok bItems)
    (hperm : arrival.Perm (List.range bItems.length)) :
    ((Handler env scheds arrival).retval = none ↔
      ∀ s ∈ sentList env scheds bItems, s = none) ∧
    ∀ i, arrival.find? (fun j =>
        ((sentList env scheds bItems).getD j none).isSome) = some i →
      (Handler env scheds arrival).retval = (sentList env scheds bItems).getD i none := by
  have hlen : (sentList env scheds bItems).length = bItems.length := by
    simp [sentList, itemExecs]
  rcases hf : arrival.find? (fun j =>
      ((sentList env scheds bItems).getD j none).isSome) with _ | i
  · rw [Handler_scan_ok_none env scheds arrival bItems hscan hf]
    refine ⟨⟨fun _ s hs => ?_, fun _ => rfl⟩,
      fun i hi => Option.noConfusion hi⟩
    obtain ⟨idx, hidx, heq⟩ := List.getElem_of_mem hs
    have hmem : idx ∈ arrival :=
      hperm.mem_iff.mpr (List.mem_range.mpr (hlen ▸ hidx))
    have hnone := List.find?_eq_none.mp hf idx hmem
    rw [List.getD_eq_getElem?_getD, List.getElem?_eq_getElem hidx, heq] at hnone
    simpa using hnone
  · rw [Handler_scan_ok_found env scheds arrival bItems i hscan hf]
    have hpred0 := List.find?_some hf
    have hpred : ((sentList env scheds bItems).getD i none).isSome = true := hpred0
    refine ⟨⟨fun hnone => ?_, fun hall => ?_⟩, fun i2 hi2 => ?_⟩
    · intro s hs
      exfalso
      have h0 : (sentList env scheds bItems).getD i none = none := hnone
      rw [h0] at hpred
      exact Bool.noConfusion hpred
    · show (sentList env scheds bItems).getD i none = none
      rcases Nat.lt_or_ge i (sentList env scheds bItems).length with hlt | hge
      · rw [List.getD_eq_getElem?_getD, List.getElem?_eq_getElem hlt]
        exact hall _ (List.getElem_mem hlt)
      · rw [List.getD_eq_getElem?_getD, List.getElem?_eq_none hge]
        rfl
    · injection hi2 with h1
      subst h1
      rfl

theorem handler_ok_iff_all_ok_witness :
    envW7.scan = Except.ok [itemUnposted, itemBad] ∧
    (((Handler envW7 schedD [0, 1]).retval = none ↔
      ∀ s ∈ sentList envW7 schedD [itemUnposted, itemBad], s = none) ∧
    ∀ i, [0, 1].find? (fun j =>
        ((sentList envW7 schedD [itemUnposted, itemBad]).getD j none).isSome) = some i →
      (Handler envW7 schedD [0, 1]).retval =
        (sentList envW7 schedD [itemUnposted, itemBad]).getD i none) :=
  ⟨rfl, handler_ok_iff_all_ok envW7 schedD [0, 1] [itemUnposted, itemBad] rfl (by decide)⟩

/-- C1, counterexample to the claim as stated: a batch of two listings
whose reconciliations both fail (client construction error 3).  Handler
surfaces the first-arriving error, but it returns at that moment rather
than waiting for the other unit: one launched per-listing unit never
signals completion (it is blocked forever sending on the unbuffered
error channel), and two goroutines (that sender and the waitgroup
watcher) outlive the call's return — contradicting "does not return
until every launched per-listing unit has signaled completion" and "no
goroutine outlives the call's return". -/
theorem handler_abandons_failing_units_cex :
    (Handler envC1 schedD [0, 1]).retval = some 3 ∧
    (Handler envC1 schedD [0, 1]).unitsLaunched = 2 ∧
    (Handler envC1 schedD [0, 1]).unitsNeverCompleting = 1 ∧
    (Handler envC1 schedD [0, 1]).leakedForever = 2 := by
  refine ⟨by decide, by decide, by decide, by decide⟩

/-- C1 (amended): when at least one per-listing reconciliation fails,
Handler surfaces only the first error to arrive on the unbuffered error
channel — later errors are discarded — but it returns at that moment
instead of waiting for the remaining units: every other failing
per-listing goroutine never completes (its send blocks forever), so
whenever two or more listings fail, at least one launched unit never
signals completion and at least one goroutine outlives the call's
return forever. -/
theorem handler_first_error_and_leaks {ε : Type} (env : Env ε)
    (scheds : Nat → ItemSched) (arrival : List Nat) (bItems : List BolhaItem)
    (i : Nat)
    (hscan : env.scan = Except.ok bItems)
    (hf : arrival.find? (fun j =>
      ((sentList env scheds bItems).getD j none).isSome) = some i) :
    (Handler env scheds arrival).retval = (sentList env scheds bItems).getD i none ∧
    ((Handler env scheds arrival).retval).isSome = true ∧
    (Handler env scheds arrival).unitsNeverCompleting =
      failCount (sentList env scheds bItems) - 1 ∧
    (2 ≤ failCount (sentList env scheds bItems) →
      0 < (Handler env scheds arrival).unitsNeverCompleting ∧
      0 < (Handler env scheds arrival).leakedForever) := by
  rw [Handler_scan_ok_found env scheds arrival bItems i hscan hf]
  have hpred0 := List.find?_some hf
  have hpred : ((sentList env scheds bItems).getD i none).isSome = true := hpred0
  refine ⟨rfl, hpred, rfl, fun h2 => ?_⟩
  constructor
  · show 0 < failCount (sentList env scheds bItems) - 1
    omega
  · show 0 < ((itemExecs env scheds bItems).map ItemExec.leakedForever).sum +
      (failCount (sentList env scheds bItems) - 1) +
      (if 0 < failCount (sentList env scheds bItems) - 1 then 1 else 0)
    have hb : 0 < failCount (sentList env scheds bItems) - 1 := by omega
    rw [if_pos hb]
    omega

theorem handler_first_error_and_leaks_witness :
    (Handler envC1 schedD [0, 1]).retval =
      (sentList envC1 schedD [itemUnposted, itemPosted]).getD 0 none ∧
    0 < (Handler envC1 schedD [0, 1]).unitsNeverCompleting ∧
    0 < (Handler envC1 schedD [0, 1]).leakedForever := by
  have h := handler_first_error_and_leaks envC1 schedD [0, 1]
    [itemUnposted, itemPosted] 0 rfl (by decide)
  exact ⟨h.1, (h.2.2.2 (by decide)).1, (h.2.2.2 (by decide)).2⟩
